import Mathlib

/-!
Shallow embedding of the database layer of the RESTful_Infrastructure server
(src/server/database: datatypes.py, models.py, repository.py, monitoring.py).

Modelling conventions:
* A SQLAlchemy session bound to the SQLite database is modelled by an explicit
  `DB` state (two tables as lists of rows, in insertion order, which is the
  row-retrieval order of an unordered query).
* `pendulum` datetimes are modelled as an abstract clock `Nat`; `isoformat`
  is the (injective) rendering of that clock value as a string.
* Python `float` sensor values are modelled as `Rat`: the code only stores and
  returns values, it never computes with them, so exact rationals are faithful.
* Python exceptions are modelled by `PyError`; an operation that mutates state
  returns `Except PyError α × DB`, the second component being the state after
  the call (equal to the input state when the call failed and rolled back).
* `models.py` declares the SensorData timestamp column as
  `Column(DateTime, default=pendulum.now("UTC"))`: the default is a scalar
  datetime evaluated once when the module is loaded, not a callable. The value
  of that scalar is the parameter `columnDefaultTime` below, and the wall clock
  at the moment of an individual call is a separate parameter `now`.
-/

namespace RESTInfra

/-- datatypes.py `SensorType` enum. -/
inductive SensorType
  | TEMPERATURE
  | WEIGHT
  | FUEL
deriving DecidableEq, Repr

/-- Python `SensorType.value` (the enum payload string). -/
def SensorType.value : SensorType → String
  | .TEMPERATURE => "temperature"
  | .WEIGHT => "weight"
  | .FUEL => "fuel"

/-- Python `SensorType.name` (the enum member name, used as dict key). -/
def SensorType.name : SensorType → String
  | .TEMPERATURE => "TEMPERATURE"
  | .WEIGHT => "WEIGHT"
  | .FUEL => "FUEL"

/-- datatypes.py `VehicleStatus` enum. -/
inductive VehicleStatus
  | ACTIVE
  | INACTIVE
  | MAINTENANCE
  | ERROR
deriving DecidableEq, Repr

/-- Abstract pendulum datetime: a clock value. -/
abbrev DateTime := Nat

/-- `datetime.isoformat()`: rendering of the clock value as a string. -/
def DateTime.isoformat (t : DateTime) : String := toString t

/-- models.py `SensorData` row (table sensor_data). -/
structure SensorData where
  id : Nat
  vehicle_serial : String
  sensor_type : SensorType
  value : Rat
  timestamp : DateTime
deriving DecidableEq, Repr

/-- models.py `VehicleStatusData` row (table vehicle_status_data). -/
structure VehicleStatusData where
  id : Nat
  vehicle_serial : String
  status : VehicleStatus
  timestamp : DateTime
deriving DecidableEq, Repr

/-- The database state behind a session: both tables, rows in insertion order. -/
structure DB where
  sensor_data : List SensorData
  vehicle_status_data : List VehicleStatusData
deriving DecidableEq, Repr

/-- The empty database produced by `create_database`. -/
def DB.empty : DB := ⟨[], []⟩

/-- Python exceptions raised by the repository layer. -/
inductive PyError
  | valueError (msg : String)
  | noResultFound
  | multipleResultsFound
deriving DecidableEq, Repr

/-- repository.py `SensorRepository._transform_sensor_data_to_dicts` output
element: the per-row dict with the enum name and the iso-formatted time. -/
structure SensorDict where
  id : Nat
  vehicle_serial : String
  sensor_type : String
  value : Rat
  timestamp : String
deriving DecidableEq, Repr

/-- A value of the result dict of the fetch operations: either the
`vehicle_serial` entry or a `([timestamps], [values])` bucket. -/
inductive DictVal
  | str (s : String)
  | bucket (timestamps : List String) (values : List Rat)
deriving DecidableEq, Repr

/-- A Python dict with string keys, keys kept in insertion order. -/
abbrev SensorDataDict := List (String × DictVal)

/-- repository.py `SensorRepository._transform_sensor_data_to_dicts`. -/
def transform_sensor_data_to_dicts (sensors : List SensorData) : List SensorDict :=
  sensors.map fun sensor =>
    { id := sensor.id
      vehicle_serial := sensor.vehicle_serial
      sensor_type := sensor.sensor_type.name
      value := sensor.value
      timestamp := DateTime.isoformat sensor.timestamp }

/-- `organized_data[sensor_type][0].append(timestamp)` and
`organized_data[sensor_type][1].append(value)`: append to the bucket bound to
key `k` (keys are unique, so updating every binding for `k` is the dict update). -/
def dictAppend (d : SensorDataDict) (k : String) (t : String) (v : Rat) : SensorDataDict :=
  d.map fun kv =>
    if kv.1 == k then
      match kv.2 with
      | .bucket ts vs => (kv.1, .bucket (ts ++ [t]) (vs ++ [v]))
      | x => (kv.1, x)
    else kv

/-- One iteration of the loop in `_group_sensor_data_by_type`: create the
bucket for the row's sensor type if missing, then append timestamp and value. -/
def groupStep (organized_data : SensorDataDict) (sensor_data : SensorDict) : SensorDataDict :=
  let organized_data :=
    if (organized_data.lookup sensor_data.sensor_type).isNone then
      organized_data ++ [(sensor_data.sensor_type, .bucket [] [])]
    else organized_data
  dictAppend organized_data sensor_data.sensor_type sensor_data.timestamp sensor_data.value

/-- repository.py `SensorRepository._group_sensor_data_by_type`. -/
def group_sensor_data_by_type (vehicle_serial : String)
    (sensor_data_list : List SensorDict) : SensorDataDict :=
  sensor_data_list.foldl groupStep [("vehicle_serial", .str vehicle_serial)]

/-- repository.py `SensorRepository.check_vehicle_existence` (also the
identical method on `VehicleStatusRepository`): `.first() is not None`. -/
def check_vehicle_existence (vehicle_serial : String) (db : DB) : Bool :=
  db.vehicle_status_data.any fun r => r.vehicle_serial == vehicle_serial

/-- repository.py `SensorRepository.insert_sensor_data_entry`:
`session.add(item); session.commit()`; on `SQLAlchemyError` (modelled by the
oracle `storageFails`) the session is rolled back and
`ValueError("Failed to add sensor data.")` is raised. -/
def insert_sensor_data_entry (item : SensorData) (storageFails : Bool) (db : DB) :
    Except PyError SensorData × DB :=
  if storageFails then
    (.error (.valueError "Failed to add sensor data."), db)
  else
    (.ok item, { db with sensor_data := db.sensor_data ++ [item] })

/-- repository.py `SensorRepository.fetch_specific_sensor_data_for_vehicle`:
query filtered by serial and sensor type, transform, raise `NoResultFound` on
an empty result (caught below and turned into a `ValueError` whose message is
refined by a vehicle-existence check), else group by type. -/
def fetch_specific_sensor_data_for_vehicle (vehicle_serial : String)
    (sensor_type : SensorType) (db : DB) : Except PyError SensorDataDict :=
  let sensors := db.sensor_data.filter fun r =>
    r.vehicle_serial == vehicle_serial && r.sensor_type == sensor_type
  let sensor_data := transform_sensor_data_to_dicts sensors
  if sensor_data.length == 0 then
    let message :=
      "Cannot get " ++ sensor_type.value ++ " data for vehicle with serial number "
        ++ vehicle_serial
    let message :=
      if !check_vehicle_existence vehicle_serial db then
        "Cannot get " ++ sensor_type.value ++ " data for vehicle with serial number "
          ++ vehicle_serial ++ " as vehicle doesn not exist."
      else message
    .error (.valueError message)
  else
    .ok (group_sensor_data_by_type vehicle_serial sensor_data)

/-- repository.py `SensorRepository.fetch_all_sensor_data_for_vehicle`:
query filtered by serial only; `NoResultFound` on an empty result, same
refined-message handling; else transform and group. -/
def fetch_all_sensor_data_for_vehicle (vehicle_serial : String) (db : DB) :
    Except PyError SensorDataDict :=
  let sensors := db.sensor_data.filter fun r => r.vehicle_serial == vehicle_serial
  if sensors.length == 0 then
    let message := "Cannot get data for vehicle with serial number " ++ vehicle_serial
    let message :=
      if !check_vehicle_existence vehicle_serial db then
        "Cannot get data for vehicle with serial number " ++ vehicle_serial
          ++ " as vehicle doesn not exist."
      else message
    .error (.valueError message)
  else
    .ok (group_sensor_data_by_type vehicle_serial
      (transform_sensor_data_to_dicts sensors))

/-- repository.py `VehicleStatusRepository.get_vehicle_status`:
`.one()` raises `NoResultFound` on zero rows (caught and reraised as the
`ValueError` below) and `MultipleResultsFound` on several rows (uncaught). -/
def get_vehicle_status (vehicle_serial : String) (db : DB) :
    Except PyError VehicleStatusData :=
  match db.vehicle_status_data.filter (fun r => r.vehicle_serial == vehicle_serial) with
  | [] =>
      .error (.valueError
        ("Cannot get vehicle status: Vehicle " ++ vehicle_serial ++ " not registered"))
  | [r] => .ok r
  | _ => .error .multipleResultsFound

/-- repository.py `VehicleStatusRepository.create_vehicle`: refuse when a row
with this serial already exists (`.first()`), else insert a fresh row with
status INACTIVE and timestamp `pendulum.now("UTC")` evaluated at call time
(the parameter `now`). The `except Exception` branch rolls back and reraises,
so on failure the state is unchanged. The primary key is the next rowid. -/
def create_vehicle (vehicle_serial : String) (now : DateTime) (db : DB) :
    Except PyError Bool × DB :=
  match db.vehicle_status_data.find? (fun r => r.vehicle_serial == vehicle_serial) with
  | some _ =>
      (.error (.valueError
        ("Vehicle with serial number: " ++ vehicle_serial ++ " already exists.")), db)
  | none =>
      let vehicle_status : VehicleStatusData :=
        { id := db.vehicle_status_data.length
          vehicle_serial := vehicle_serial
          status := .INACTIVE
          timestamp := now }
      (.ok true, { db with vehicle_status_data := db.vehicle_status_data ++ [vehicle_status] })

/-- The field update performed on the ORM row in
`update_status_of_particular_vehicle` (only `status` and `timestamp` change). -/
def apply_status_update (vehicle_serial : String) (new_status : VehicleStatus)
    (now : DateTime) (r : VehicleStatusData) : VehicleStatusData :=
  if r.vehicle_serial == vehicle_serial then
    { r with status := new_status, timestamp := now }
  else r

/-- repository.py `VehicleStatusRepository.update_status_of_particular_vehicle`:
fetch via `get_vehicle_status`, mutate `status` and `timestamp`, commit. The
`except NoResultFound` branch raises the `ValueError` with the "not found!"
message; any other exception propagates, leaving the state unchanged. -/
def update_status_of_particular_vehicle (vehicle_serial : String)
    (new_status : VehicleStatus) (now : DateTime) (db : DB) :
    Except PyError Unit × DB :=
  match get_vehicle_status vehicle_serial db with
  | .error .noResultFound =>
      (.error (.valueError
        ("Vehicle with serial number " ++ vehicle_serial ++ " not found!")), db)
  | .error e => (.error e, db)
  | .ok _ =>
      (.ok (), { db with vehicle_status_data :=
        db.vehicle_status_data.map (apply_status_update vehicle_serial new_status now) })

/-- repository.py `VehicleStatusRepository.get_all_vehicles` composed with
`_format_all_vehicle_serial_number`. -/
def get_all_vehicles (db : DB) : List String :=
  db.vehicle_status_data.map fun r => r.vehicle_serial

/-- monitoring.py `VehicleDataManager.record_sensor_data_for_vehicle`:
check registration via `get_vehicle_status` (its `ValueError` propagates),
build `SensorData(vehicle_serial=.., sensor_type=.., value=..)` — whose
timestamp is filled by the sensor_data column default, the scalar datetime
`columnDefaultTime` fixed when models.py was loaded, NOT the call-time clock
`now` — then delegate to `insert_sensor_data_entry`. -/
def record_sensor_data_for_vehicle (vehicle_serial : String) (sensor_type : SensorType)
    (value : Rat) (storageFails : Bool) (now columnDefaultTime : DateTime) (db : DB) :
    Except PyError SensorData × DB :=
  match get_vehicle_status vehicle_serial db with
  | .error e => (.error e, db)
  | .ok _ =>
      let sensor_data : SensorData :=
        { id := db.sensor_data.length
          vehicle_serial := vehicle_serial
          sensor_type := sensor_type
          value := value
          timestamp := columnDefaultTime }
      insert_sensor_data_entry sensor_data storageFails db

/-- monitoring.py `VehicleDataManager.register_new_vehicle_and_initialize_status`:
pure delegation to `create_vehicle`. -/
def register_new_vehicle_and_initialize_status (vehicle_serial : String)
    (now : DateTime) (db : DB) : Except PyError Bool × DB :=
  create_vehicle vehicle_serial now db

/-- monitoring.py `VehicleDataManager.update_vehicle_status_by_serial_number`:
pure delegation to `update_status_of_particular_vehicle`. -/
def update_vehicle_status_by_serial_number (vehicle_serial : String)
    (new_status : VehicleStatus) (now : DateTime) (db : DB) :
    Except PyError Unit × DB :=
  update_status_of_particular_vehicle vehicle_serial new_status now db

/-- Database states reachable from the empty database by the public
state-changing operations; the fetch, get and list operations are read-only
(they take the state and return a value without a new state). -/
inductive Reachable : DB → Prop
  | init : Reachable DB.empty
  | create (serial : String) (now : DateTime) {db : DB} :
      Reachable db → Reachable (create_vehicle serial now db).2
  | update (serial : String) (st : VehicleStatus) (now : DateTime) {db : DB} :
      Reachable db →
      Reachable (update_status_of_particular_vehicle serial st now db).2
  | record (serial : String) (ty : SensorType) (v : Rat) (storageFails : Bool)
      (now cdt : DateTime) {db : DB} :
      Reachable db →
      Reachable (record_sensor_data_for_vehicle serial ty v storageFails now cdt db).2


lemma name_ne_serial_key (ty : SensorType) : ty.name ≠ "vehicle_serial" := by
  cases ty <;> decide

lemma groupStep_with_bucket (serial tyName : String) (ts : List String) (vs : List Rat)
    (sd : SensorDict) (h : sd.sensor_type = tyName) (hne : tyName ≠ "vehicle_serial") :
    groupStep [("vehicle_serial", .str serial), (tyName, .bucket ts vs)] sd
      = [("vehicle_serial", .str serial),
         (tyName, .bucket (ts ++ [sd.timestamp]) (vs ++ [sd.value]))] := by
  have hbeq : (tyName == "vehicle_serial") = false := by
    simp [hne]
  have hbeq2 : ("vehicle_serial" == tyName) = false := by
    simp [Ne.symm hne]
  simp [groupStep, dictAppend, List.lookup, h, hbeq, hbeq2]

lemma groupStep_fresh (serial tyName : String)
    (sd : SensorDict) (h : sd.sensor_type = tyName) (hne : tyName ≠ "vehicle_serial") :
    groupStep [("vehicle_serial", .str serial)] sd
      = [("vehicle_serial", .str serial),
         (tyName, .bucket [sd.timestamp] [sd.value])] := by
  have hbeq : (tyName == "vehicle_serial") = false := by
    simp [hne]
  have hbeq2 : ("vehicle_serial" == tyName) = false := by
    simp [Ne.symm hne]
  simp [groupStep, dictAppend, List.lookup, h, hbeq, hbeq2]

lemma foldl_groupStep_same_type (serial tyName : String) (hne : tyName ≠ "vehicle_serial")
    (rows : List SensorDict) (hrows : ∀ r ∈ rows, r.sensor_type = tyName)
    (ts : List String) (vs : List Rat) :
    rows.foldl groupStep [("vehicle_serial", .str serial), (tyName, .bucket ts vs)]
      = [("vehicle_serial", .str serial),
         (tyName, .bucket (ts ++ rows.map (fun r => r.timestamp))
                          (vs ++ rows.map (fun r => r.value)))] := by
  induction rows generalizing ts vs with
  | nil => simp
  | cons r rest ih =>
      rw [List.foldl_cons,
        groupStep_with_bucket serial tyName ts vs r (hrows r (by simp)) hne,
        ih (fun x hx => hrows x (by simp [hx]))]
      simp

lemma group_single_type (serial tyName : String) (hne : tyName ≠ "vehicle_serial")
    (rows : List SensorDict) (hrows : ∀ r ∈ rows, r.sensor_type = tyName)
    (hnil : rows ≠ []) :
    group_sensor_data_by_type serial rows
      = [("vehicle_serial", .str serial),
         (tyName, .bucket (rows.map (fun r => r.timestamp))
                          (rows.map (fun r => r.value)))] := by
  match rows, hnil with
  | r :: rest, _ =>
      rw [group_sensor_data_by_type, List.foldl_cons,
        groupStep_fresh serial tyName r (hrows r (by simp)) hne,
        foldl_groupStep_same_type serial tyName hne rest
          (fun x hx => hrows x (by simp [hx]))]
      simp

lemma fetch_specific_ok_eq (serial : String) (ty : SensorType) (db : DB)
    (h : db.sensor_data.filter
        (fun r => r.vehicle_serial == serial && r.sensor_type == ty) ≠ []) :
    fetch_specific_sensor_data_for_vehicle serial ty db
      = .ok [("vehicle_serial", .str serial),
             (ty.name, .bucket
               ((db.sensor_data.filter
                  (fun r => r.vehicle_serial == serial && r.sensor_type == ty)).map
                  (fun r => DateTime.isoformat r.timestamp))
               ((db.sensor_data.filter
                  (fun r => r.vehicle_serial == serial && r.sensor_type == ty)).map
                  (fun r => r.value)))] := by
  rw [fetch_specific_sensor_data_for_vehicle]
  have hlen : ((transform_sensor_data_to_dicts (db.sensor_data.filter
      (fun r => r.vehicle_serial == serial && r.sensor_type == ty))).length == 0) = false := by
    simp [transform_sensor_data_to_dicts, List.length_eq_zero, h]
  simp only [hlen, if_false, Bool.false_eq_true]
  rw [group_single_type serial ty.name (name_ne_serial_key ty)]
  · simp [transform_sensor_data_to_dicts, List.map_map, Function.comp]
  · intro x hx
    simp [transform_sensor_data_to_dicts] at hx
    obtain ⟨r, hr, rfl⟩ := hx
    simp [hr.2.2]
  · simp [transform_sensor_data_to_dicts, h]


lemma get_vehicle_status_absent (serial : String) (db : DB)
    (h : ∀ r ∈ db.vehicle_status_data, r.vehicle_serial ≠ serial) :
    get_vehicle_status serial db
      = .error (.valueError
          ("Cannot get vehicle status: Vehicle " ++ serial ++ " not registered")) := by
  rw [get_vehicle_status]
  have hf : db.vehicle_status_data.filter (fun r => r.vehicle_serial == serial) = [] :=
    List.filter_eq_nil_iff.mpr (fun a ha => by simp [h a ha])
  rw [hf]

lemma get_vehicle_status_error_cases (serial : String) (db : DB) (e : PyError)
    (h : get_vehicle_status serial db = .error e) :
    e = .valueError ("Cannot get vehicle status: Vehicle " ++ serial ++ " not registered")
      ∨ e = .multipleResultsFound := by
  rw [get_vehicle_status] at h
  rcases hf : db.vehicle_status_data.filter (fun r => r.vehicle_serial == serial) with
    _ | ⟨a, _ | ⟨b, l⟩⟩ <;> rw [hf] at h <;> simp at h
  · exact Or.inl h.symm
  · exact Or.inr h.symm

lemma registered_msg_ne_notfound_msg (serial : String) :
    "Cannot get vehicle status: Vehicle " ++ serial ++ " not registered"
      ≠ "Vehicle with serial number " ++ serial ++ " not found!" := by
  intro h
  have h' := congrArg String.length h
  have e1 : ("Cannot get vehicle status: Vehicle " : String).length = 35 := rfl
  have e2 : (" not registered" : String).length = 15 := rfl
  have e3 : ("Vehicle with serial number " : String).length = 27 := rfl
  have e4 : (" not found!" : String).length = 11 := rfl
  simp only [String.length_append, e1, e2, e3, e4] at h'
  omega

lemma append_ne_self_append (a b : String) (hb : 0 < b.length) : a ≠ a ++ b := by
  intro h
  have h' := congrArg String.length h
  rw [String.length_append] at h'
  omega

namespace Claims

/-- Concrete database for witnesses: vehicle "V123" registered at time 0,
then three TEMPERATURE readings 23.5, 24.0, 22.8 inserted at times 1, 2, 3. -/
def exampleDB : DB :=
  ⟨[⟨0, "V123", .TEMPERATURE, 23.5, 1⟩, ⟨1, "V123", .TEMPERATURE, 24, 2⟩,
    ⟨2, "V123", .TEMPERATURE, 22.8, 3⟩], [⟨0, "V123", .INACTIVE, 0⟩]⟩

/-- C1: for every vehicle serial with a non-empty set of stored readings of the
requested type, `fetch_specific_sensor_data_for_vehicle` returns the dict with
the `vehicle_serial` key bound to the serial and the requested sensor-type name
bound to the pair of parallel lists (component 0 the iso-formatted timestamps,
component 1 the values), both in row-retrieval (insertion) order and of equal
length. -/
theorem fetchByType_returns_parallel_series (serial : String) (ty : SensorType)
    (db : DB)
    (h : db.sensor_data.filter
        (fun r => r.vehicle_serial == serial && r.sensor_type == ty) ≠ []) :
    fetch_specific_sensor_data_for_vehicle serial ty db
      = .ok [("vehicle_serial", .str serial),
             (ty.name, .bucket
               ((db.sensor_data.filter
                  (fun r => r.vehicle_serial == serial && r.sensor_type == ty)).map
                  (fun r => DateTime.isoformat r.timestamp))
               ((db.sensor_data.filter
                  (fun r => r.vehicle_serial == serial && r.sensor_type == ty)).map
                  (fun r => r.value)))]
    ∧ ((db.sensor_data.filter
          (fun r => r.vehicle_serial == serial && r.sensor_type == ty)).map
          (fun r => DateTime.isoformat r.timestamp)).length
        = ((db.sensor_data.filter
            (fun r => r.vehicle_serial == serial && r.sensor_type == ty)).map
            (fun r => r.value)).length :=
  ⟨fetch_specific_ok_eq serial ty db h, by simp⟩

/-- Witness for C1 at the spec's concrete example: after three TEMPERATURE
readings 23.5, 24.0, 22.8 for "V123", the TEMPERATURE bucket holds the three
timestamps in insertion order and exactly the values [23.5, 24.0, 22.8]. -/
theorem fetchByType_returns_parallel_series_witness :
    fetch_specific_sensor_data_for_vehicle "V123" .TEMPERATURE exampleDB
      = .ok [("vehicle_serial", .str "V123"),
             ("TEMPERATURE", .bucket ["1", "2", "3"] [23.5, 24, 22.8])] :=
  ((fetchByType_returns_parallel_series "V123" .TEMPERATURE exampleDB
    (by decide)).1).trans (by rfl)

/-- C9: every successful `fetch_specific_sensor_data_for_vehicle` result has
exactly the two keys `vehicle_serial` and the requested sensor type's name,
in that order — never a bucket for any other sensor type. -/
theorem fetchByType_result_has_exactly_two_keys (serial : String) (ty : SensorType)
    (db : DB) (d : SensorDataDict)
    (h : fetch_specific_sensor_data_for_vehicle serial ty db = .ok d) :
    d.map Prod.fst = ["vehicle_serial", ty.name] := by
  by_cases hf : db.sensor_data.filter
      (fun r => r.vehicle_serial == serial && r.sensor_type == ty) = []
  · rw [fetch_specific_sensor_data_for_vehicle] at h
    simp [transform_sensor_data_to_dicts, hf] at h
  · rw [fetch_specific_ok_eq serial ty db hf] at h
    cases h
    simp

/-- Witness for C9 at the concrete example database. -/
theorem fetchByType_result_has_exactly_two_keys_witness :
    ([("vehicle_serial", DictVal.str "V123"),
      ("TEMPERATURE", DictVal.bucket ["1", "2", "3"] [23.5, 24, 22.8])].map Prod.fst)
      = ["vehicle_serial", SensorType.TEMPERATURE.name] :=
  fetchByType_result_has_exactly_two_keys "V123" .TEMPERATURE exampleDB _ (by rfl)

/-- C2: recording a sensor reading for an unregistered serial fails with the
not-registered error before anything is persisted — the state is unchanged;
for a registered serial the call delegates to `insert_sensor_data_entry` with
the freshly built row. -/
theorem recordSensorData_requires_registration (serial : String) (ty : SensorType)
    (v : Rat) (storageFails : Bool) (now cdt : DateTime) (db : DB) :
    ((∀ r ∈ db.vehicle_status_data, r.vehicle_serial ≠ serial) →
      record_sensor_data_for_vehicle serial ty v storageFails now cdt db
        = (.error (.valueError
            ("Cannot get vehicle status: Vehicle " ++ serial ++ " not registered")), db))
    ∧ (∀ row, get_vehicle_status serial db = .ok row →
      record_sensor_data_for_vehicle serial ty v storageFails now cdt db
        = insert_sensor_data_entry
            ⟨db.sensor_data.length, serial, ty, v, cdt⟩ storageFails db) := by
  constructor
  · intro h
    rw [record_sensor_data_for_vehicle, get_vehicle_status_absent serial db h]
  · intro row hrow
    rw [record_sensor_data_for_vehicle, hrow]

/-- Witness for C2: recording for the unregistered serial "ZZ" fails and
leaves the example database untouched. -/
theorem recordSensorData_requires_registration_witness :
    record_sensor_data_for_vehicle "ZZ" .FUEL 1 false 5 0 exampleDB
      = (.error (.valueError "Cannot get vehicle status: Vehicle ZZ not registered"),
         exampleDB) :=
  (recordSensorData_requires_registration "ZZ" .FUEL 1 false 5 0 exampleDB).1
    (by decide)

/-- C3: creating a vehicle whose serial already has a row fails with the
already-exists error and leaves the state (hence the stored row) unchanged;
creating an absent serial appends exactly one INACTIVE row stamped with the
call-time clock and returns success. -/
theorem createVehicle_duplicate_fails_new_inserts (serial : String) (now : DateTime)
    (db : DB) :
    ((∃ r ∈ db.vehicle_status_data, r.vehicle_serial = serial) →
      create_vehicle serial now db
        = (.error (.valueError
            ("Vehicle with serial number: " ++ serial ++ " already exists.")), db))
    ∧ ((∀ r ∈ db.vehicle_status_data, r.vehicle_serial ≠ serial) →
      create_vehicle serial now db
        = (.ok true, { db with vehicle_status_data := db.vehicle_status_data
            ++ [⟨db.vehicle_status_data.length, serial, .INACTIVE, now⟩] })) := by
  constructor
  · rintro ⟨r, hr, hs⟩
    rw [create_vehicle]
    rcases hfind : db.vehicle_status_data.find? (fun r => r.vehicle_serial == serial)
      with _ | x
    · exact absurd (List.find?_eq_none.mp hfind r hr) (by simp [hs])
    · rw [hfind]
  · intro h
    rw [create_vehicle, List.find?_eq_none.mpr (fun a ha => by simp [h a ha])]

/-- Witness for C3: registering "V123" a second time fails and the stored row
is unchanged; registering the fresh "NEW" appends exactly one INACTIVE row. -/
theorem createVehicle_duplicate_fails_new_inserts_witness :
    create_vehicle "V123" 9 exampleDB
      = (.error (.valueError "Vehicle with serial number: V123 already exists."),
         exampleDB)
    ∧ create_vehicle "NEW" 9 exampleDB
      = (.ok true, { exampleDB with vehicle_status_data :=
          exampleDB.vehicle_status_data ++ [⟨1, "NEW", .INACTIVE, 9⟩] }) :=
  ⟨(createVehicle_duplicate_fails_new_inserts "V123" 9 exampleDB).1
      ⟨⟨0, "V123", .INACTIVE, 0⟩, by decide, rfl⟩,
   (createVehicle_duplicate_fails_new_inserts "NEW" 9 exampleDB).2 (by decide)⟩

/-- C4: updating an unregistered serial fails with the not-registered error
and the state is unchanged (no row is created); updating a registered serial
succeeds and rewrites the table by a per-row function that changes only the
`status` and `timestamp` fields of the rows with that serial and leaves every
other row, and every row's `vehicle_serial` and `id`, unchanged. -/
theorem updateStatus_absent_fails_present_touches_only_status_and_timestamp
    (serial : String) (st : VehicleStatus) (now : DateTime) (db : DB) :
    ((∀ r ∈ db.vehicle_status_data, r.vehicle_serial ≠ serial) →
      update_status_of_particular_vehicle serial st now db
        = (.error (.valueError
            ("Cannot get vehicle status: Vehicle " ++ serial ++ " not registered")), db))
    ∧ (∀ row, get_vehicle_status serial db = .ok row →
      update_status_of_particular_vehicle serial st now db
        = (.ok (), { db with vehicle_status_data :=
            db.vehicle_status_data.map (apply_status_update serial st now) }))
    ∧ (∀ r, r.vehicle_serial ≠ serial → apply_status_update serial st now r = r)
    ∧ (∀ r, (apply_status_update serial st now r).vehicle_serial = r.vehicle_serial
        ∧ (apply_status_update serial st now r).id = r.id) := by
  refine ⟨?_, ?_, ?_, ?_⟩
  · intro h
    rw [update_status_of_particular_vehicle, get_vehicle_status_absent serial db h]
  · intro row hrow
    rw [update_status_of_particular_vehicle, hrow]
  · intro r hr
    simp [apply_status_update, hr]
  · intro r
    unfold apply_status_update
    by_cases hr : r.vehicle_serial == serial <;> simp [hr]

/-- Witness for C4: updating the unregistered "ZZ" fails and changes nothing;
updating the registered "V123" rewrites only status and timestamp. -/
theorem updateStatus_absent_fails_witness :
    update_status_of_particular_vehicle "ZZ" .ACTIVE 9 exampleDB
      = (.error (.valueError "Cannot get vehicle status: Vehicle ZZ not registered"),
         exampleDB)
    ∧ update_status_of_particular_vehicle "V123" .ACTIVE 9 exampleDB
      = (.ok (), { exampleDB with vehicle_status_data :=
          exampleDB.vehicle_status_data.map (apply_status_update "V123" .ACTIVE 9) }) :=
  ⟨(updateStatus_absent_fails_present_touches_only_status_and_timestamp
      "ZZ" .ACTIVE 9 exampleDB).1 (by decide),
   (updateStatus_absent_fails_present_touches_only_status_and_timestamp
      "V123" .ACTIVE 9 exampleDB).2.1 ⟨0, "V123", .INACTIVE, 0⟩ (by rfl)⟩

/-- C5: when zero reading rows match, `fetch_specific_sensor_data_for_vehicle`
fails with a message selected by a separate vehicle-existence check, the two
messages being distinct; `fetch_all_sensor_data_for_vehicle` behaves the same
for a serial with zero reading rows. -/
theorem fetch_zero_rows_fails_with_refined_message (serial : String)
    (ty : SensorType) (db : DB) :
    (db.sensor_data.filter
        (fun r => r.vehicle_serial == serial && r.sensor_type == ty) = [] →
      fetch_specific_sensor_data_for_vehicle serial ty db
        = .error (.valueError
            (if check_vehicle_existence serial db then
              "Cannot get " ++ ty.value ++ " data for vehicle with serial number "
                ++ serial
            else
              "Cannot get " ++ ty.value ++ " data for vehicle with serial number "
                ++ serial ++ " as vehicle doesn not exist.")))
    ∧ ("Cannot get " ++ ty.value ++ " data for vehicle with serial number " ++ serial
        ≠ "Cannot get " ++ ty.value ++ " data for vehicle with serial number "
            ++ serial ++ " as vehicle doesn not exist.")
    ∧ (db.sensor_data.filter (fun r => r.vehicle_serial == serial) = [] →
      fetch_all_sensor_data_for_vehicle serial db
        = .error (.valueError
            (if check_vehicle_existence serial db then
              "Cannot get data for vehicle with serial number " ++ serial
            else
              "Cannot get data for vehicle with serial number " ++ serial
                ++ " as vehicle doesn not exist.")))
    ∧ ("Cannot get data for vehicle with serial number " ++ serial
        ≠ "Cannot get data for vehicle with serial number " ++ serial
            ++ " as vehicle doesn not exist.") := by
  refine ⟨?_, append_ne_self_append _ _ (by decide), ?_,
    append_ne_self_append _ _ (by decide)⟩
  · intro hf
    rw [fetch_specific_sensor_data_for_vehicle]
    cases hc : check_vehicle_existence serial db <;>
      simp [transform_sensor_data_to_dicts, hf, hc]
  · intro hf
    rw [fetch_all_sensor_data_for_vehicle]
    cases hc : check_vehicle_existence serial db <;> simp [hf, hc]

/-- Witness for C5: "V123" exists but has no FUEL readings, so the short
message is produced; "V999" does not exist, so the refined message is. -/
theorem fetch_zero_rows_fails_with_refined_message_witness :
    fetch_specific_sensor_data_for_vehicle "V123" .FUEL exampleDB
      = .error (.valueError
          "Cannot get fuel data for vehicle with serial number V123")
    ∧ fetch_all_sensor_data_for_vehicle "V999" exampleDB
      = .error (.valueError
          ("Cannot get data for vehicle with serial number V999"
            ++ " as vehicle doesn not exist.")) :=
  ⟨((fetch_zero_rows_fails_with_refined_message "V123" .FUEL exampleDB).1
      (by decide)).trans (by rfl),
   ((fetch_zero_rows_fails_with_refined_message "V999" .FUEL exampleDB).2.2.1
      (by decide)).trans (by rfl)⟩

/-- C6: registering an absent serial succeeds, and immediately reading the
status back returns the INACTIVE row stamped with the registration-time
clock. -/
theorem register_then_getVehicleStatus_INACTIVE (serial : String) (now : DateTime)
    (db : DB) (h : ∀ r ∈ db.vehicle_status_data, r.vehicle_serial ≠ serial) :
    (create_vehicle serial now db).1 = .ok true
    ∧ get_vehicle_status serial (create_vehicle serial now db).2
        = .ok ⟨db.vehicle_status_data.length, serial, .INACTIVE, now⟩ := by
  have hfind : db.vehicle_status_data.find? (fun r => r.vehicle_serial == serial) = none :=
    List.find?_eq_none.mpr (fun a ha => by simp [h a ha])
  have hfilter : db.vehicle_status_data.filter (fun r => r.vehicle_serial == serial) = [] :=
    List.filter_eq_nil_iff.mpr (fun a ha => by simp [h a ha])
  constructor
  · rw [create_vehicle, hfind]
  · rw [create_vehicle, hfind, get_vehicle_status]
    simp [List.filter_append, hfilter]

/-- Witness for C6 at the spec's concrete example: registering "ABC123" on the
empty database, then reading its status, returns INACTIVE. -/
theorem register_then_getVehicleStatus_INACTIVE_witness :
    (create_vehicle "ABC123" 4 DB.empty).1 = .ok true
    ∧ get_vehicle_status "ABC123" (create_vehicle "ABC123" 4 DB.empty).2
        = .ok ⟨0, "ABC123", .INACTIVE, 4⟩ :=
  register_then_getVehicleStatus_INACTIVE "ABC123" 4 DB.empty (by simp [DB.empty])

/-- C10: the `except NoResultFound` branch of
`update_status_of_particular_vehicle` is unreachable — the inner
`get_vehicle_status` already converts `NoResultFound` into its own
`ValueError` — so the "not found!" message is never surfaced, and for an
unregistered serial the surfaced error is the not-registered message. -/
theorem updateStatus_notFound_branch_unreachable (serial : String)
    (st : VehicleStatus) (now : DateTime) (db : DB) :
    ((update_status_of_particular_vehicle serial st now db).1
        ≠ .error (.valueError
            ("Vehicle with serial number " ++ serial ++ " not found!")))
    ∧ ((∀ r ∈ db.vehicle_status_data, r.vehicle_serial ≠ serial) →
      (update_status_of_particular_vehicle serial st now db).1
        = .error (.valueError
            ("Cannot get vehicle status: Vehicle " ++ serial ++ " not registered"))) := by
  constructor
  · rw [update_status_of_particular_vehicle]
    rcases hg : get_vehicle_status serial db with e | r
    · rcases get_vehicle_status_error_cases serial db e hg with rfl | rfl
      · simp [registered_msg_ne_notfound_msg serial]
      · simp
    · simp
  · intro h
    rw [update_status_of_particular_vehicle, get_vehicle_status_absent serial db h]

/-- Witness for C10: on the example database, updating the unregistered "ZZ"
surfaces the not-registered message, never the "not found!" one. -/
theorem updateStatus_notFound_branch_unreachable_witness :
    (update_status_of_particular_vehicle "ZZ" .ERROR 9 exampleDB).1
      = .error (.valueError "Cannot get vehicle status: Vehicle ZZ not registered") :=
  ((updateStatus_notFound_branch_unreachable "ZZ" .ERROR 9 exampleDB).2
    (by decide)).trans (by rfl)

lemma apply_status_update_serial (serial : String) (st : VehicleStatus)
    (now : DateTime) (r : VehicleStatusData) :
    (apply_status_update serial st now r).vehicle_serial = r.vehicle_serial := by
  unfold apply_status_update
  by_cases hr : r.vehicle_serial == serial <;> simp [hr]

/-- The uniqueness invariant of C7: at most one VehicleStatusData row per
distinct vehicle_serial. -/
def UniqueSerials (db : DB) : Prop :=
  db.vehicle_status_data.Pairwise fun a b => a.vehicle_serial ≠ b.vehicle_serial

lemma record_preserves_status_table (serial : String) (ty : SensorType) (v : Rat)
    (storageFails : Bool) (now cdt : DateTime) (db : DB) :
    (record_sensor_data_for_vehicle serial ty v storageFails now cdt db).2.vehicle_status_data
      = db.vehicle_status_data := by
  rw [record_sensor_data_for_vehicle]
  rcases hg : get_vehicle_status serial db with e | r
  · rfl
  · cases storageFails <;> simp [insert_sensor_data_entry]

/-- C7: every database state reachable from the empty database by the public
operations holds at most one VehicleStatusData row per distinct
vehicle_serial. -/
theorem reachable_states_have_unique_serials (db : DB) (h : Reachable db) :
    UniqueSerials db := by
  induction h with
  | init => simp [UniqueSerials, DB.empty]
  | create serial now hdb ih =>
      rename_i db'
      unfold UniqueSerials
      rw [create_vehicle]
      rcases hfind : db'.vehicle_status_data.find? (fun r => r.vehicle_serial == serial)
        with _ | x
      · rw [hfind]
        refine List.pairwise_append.mpr ⟨ih, List.pairwise_singleton _ _, ?_⟩
        intro a ha b hb
        have hb' : b = (⟨db'.vehicle_status_data.length, serial, .INACTIVE, now⟩ :
            VehicleStatusData) := by simpa using hb
        have := List.find?_eq_none.mp hfind a ha
        subst hb'
        simpa using this
      · rw [hfind]
        exact ih
  | update serial st now hdb ih =>
      rename_i db'
      unfold UniqueSerials
      rw [update_status_of_particular_vehicle]
      rcases hg : get_vehicle_status serial db' with e | r
      · cases e <;> exact ih
      · refine List.Pairwise.map _ ?_ ih
        intro a b hab
        rw [apply_status_update_serial, apply_status_update_serial]
        exact hab
  | record serial ty v storageFails now cdt hdb ih =>
      rename_i db'
      unfold UniqueSerials
      rw [record_preserves_status_table]
      exact ih

/-- Witness for C7: the state after one registration is reachable and keeps
the invariant. -/
theorem reachable_states_have_unique_serials_witness :
    UniqueSerials (create_vehicle "A" 0 DB.empty).2 :=
  reachable_states_have_unique_serials _ (Reachable.create "A" 0 Reachable.init)

/-- A database with just the registered vehicle "V1". -/
def registeredDB : DB := ⟨[], [⟨0, "V1", .INACTIVE, 0⟩]⟩

/-- C8 evaluation at a failing input: with "V1" registered, models.py loaded
at clock 0 and a reading recorded at call-time clock 5, the persisted row's
timestamp is 0 — the module-load-time column default, not the current clock 5
— because `Column(DateTime, default=pendulum.now("UTC"))` evaluates
`pendulum.now` once, at class-definition time, to a scalar. The failure path
behaves as claimed: a storage failure raises the persistence error and the
rolled-back state is unchanged; the success path appends exactly one row. -/
theorem insertReading_stores_module_load_time_not_current_time :
    ((record_sensor_data_for_vehicle "V1" .TEMPERATURE 1 false 5 0
        registeredDB).2.sensor_data
      = [⟨0, "V1", .TEMPERATURE, 1, 0⟩])
    ∧ (0 : DateTime) ≠ 5
    ∧ record_sensor_data_for_vehicle "V1" .TEMPERATURE 1 true 5 0 registeredDB
        = (.error (.valueError "Failed to add sensor data."), registeredDB) :=
  ⟨by rfl, by decide, by rfl⟩

end Claims

end RESTInfra
